import Mathlib

/-!
Verification of the Medallion_Project silver-layer pipeline
(`src/silver_transform.py`, `src/etl.py`, `src/db.py`).

The pipeline reads raw bronze rows, validates and normalizes them per
entity, enforces referential integrity against committed silver key
snapshots, bulk-inserts admitted rows with conflict-ignore-on-primary-key
semantics, and appends each rejected row to an audit store.

This file shallowly embeds that code:
* a raw bronze row is an association list of column name to untyped scalar
  (`Value`), mirroring `row.to_dict()`;
* Python scalar coercions (`int(...)`, `float(...)`, `str(...)`,
  `.strip()`, `.lower()`, `.capitalize()`, `safe_int`,
  `pd.to_datetime(..., errors="coerce")`) are modelled as executable Lean
  functions on `Value`/`String`.  Python floats are modelled as exact
  rationals: for the decimal literals and the sign / truncation tests the
  code performs, binary rounding never changes the outcome at the
  magnitudes the pipeline handles.  Non-finite float literals ("inf",
  "nan") are out of scope: `safe_int` sends them to `None` either way,
  which is the only path the code exercises.  Date columns are staged from
  CSV as text, so `pd.to_datetime` is modelled as an ISO `YYYY-MM-DD`
  parser on string values, with `NaT` (`none`) for everything unparsable;
* each `transform_<entity>` is a Lean function on an explicit database
  state `DB`; the per-row `try/except` of the source becomes an
  `Except String` validator per entity, and the `except` clause's
  `str(e)` becomes the validator's error string;
* the commit boundaries of a stage (one `executemany ... ON CONFLICT DO
  NOTHING; conn.commit()` for the admitted batch, then one committed
  `reject_row` per rejected row) are reified as a list of `Op`s so that
  partial-failure / durability statements can be made about prefixes.
-/

namespace Medallion

/-- An untyped scalar as staged in a bronze cell: an integer, a string, or
a SQL NULL (Python `None`). -/
inductive Value where
  | int (n : Int)
  | str (s : String)
  | null
deriving DecidableEq, Repr

/-- A raw bronze row, as in `row.to_dict()`: column name to scalar,
in column order. -/
abbrev Raw := List (String × Value)

/-- `row["k"]`: pandas raises `KeyError` on a missing column; inside the
per-row `try` this is caught and `str(KeyError("k"))` is the quoted key. -/
def lookupField (row : Raw) (k : String) : Except String Value :=
  match row.lookup k with
  | some v => Except.ok v
  | none => Except.error ("\x27" ++ k ++ "\x27")

/-- Python `str(value)`: identity on strings, decimal on ints, `"None"`
for null. -/
def pyStr : Value → String
  | .int n => toString n
  | .str s => s
  | .null => "None"

/-- Value of a list of decimal digits. -/
def digitsToNat (cs : List Char) : Nat :=
  cs.foldl (fun a c => a * 10 + (c.toNat - 48)) 0

/-- Whitespace stripped from both ends, as Python `str.strip()`. -/
def stripChars (cs : List Char) : List Char :=
  ((cs.dropWhile Char.isWhitespace).reverse.dropWhile Char.isWhitespace).reverse

/-- Python `s.strip()`. -/
def pyStrip (s : String) : String := String.mk (stripChars s.toList)

/-- Python `s.lower()` (ASCII). -/
def pyLower (s : String) : String := String.mk (s.toList.map Char.toLower)

/-- Optional leading sign of a numeric literal. -/
def parseSign : List Char → Int × List Char
  | c :: rest => if c = '-' then (-1, rest) else if c = '+' then (1, rest) else (1, c :: rest)
  | [] => (1, [])

/-- Python `int(s)` on a string: strip whitespace, optional sign, one or
more decimal digits; anything else raises `ValueError`. -/
def pyIntOfString (s : String) : Option Int :=
  let cs := stripChars s.toList
  let p := parseSign cs
  if p.2 ≠ [] ∧ p.2.all Char.isDigit then some (p.1 * digitsToNat p.2) else none

/-- Python `int(value)` as used on id fields: ints pass through, strings
must be pure decimal integers, null raises `TypeError`.  The error string
is `str(e)` of the raised exception. -/
def py_int : Value → Except String Int
  | .int n => Except.ok n
  | .str s =>
    match pyIntOfString s with
    | some n => Except.ok n
    | none => Except.error ("invalid literal for int() with base 10: \x27" ++ s ++ "\x27")
  | .null => Except.error "int() argument must be a string, a bytes-like object or a real number, not \x27NoneType\x27"

/-- Fractional part `.ddd` of a float literal, if present. -/
def parseFrac : List Char → List Char × List Char
  | c :: rest =>
    if c = '.' then (rest.takeWhile Char.isDigit, rest.dropWhile Char.isDigit) else ([], c :: rest)
  | [] => ([], [])

/-- Exponent part `e±ddd` of a float literal; `some 0` when absent,
`none` when the remaining input is not a well-formed exponent. -/
def parseExp : List Char → Option Int
  | [] => some 0
  | c :: rest =>
    if c = 'e' ∨ c = 'E' then
      let p := parseSign rest
      let ed := p.2.takeWhile Char.isDigit
      if ed ≠ [] ∧ p.2.dropWhile Char.isDigit = [] then some (p.1 * digitsToNat ed) else none
    else none

/-- A finite decimal, the exact value of a parsed Python float literal:
`num / 10 ^ exp`.  At the magnitudes the pipeline handles, binary float
rounding never changes the sign test or the integer truncation the code
performs, so this exact representation is faithful. -/
structure DecF where
  num : Int
  exp : Nat
deriving DecidableEq, Repr

/-- The rational value of a parsed float. -/
def DecF.toRat (q : DecF) : Rat := (q.num : Rat) / (10 : Rat) ^ q.exp

/-- Python `float(s)` on a finite decimal literal: strip whitespace,
optional sign, digits with optional fraction and exponent; anything else
raises `ValueError`. -/
def floatOfString (s : String) : Option DecF :=
  let cs := stripChars s.toList
  let p := parseSign cs
  let ip := p.2.takeWhile Char.isDigit
  let cs2 := p.2.dropWhile Char.isDigit
  let fr := parseFrac cs2
  match parseExp fr.2 with
  | none => none
  | some e =>
    if ip = [] ∧ fr.1 = [] then none
    else
      let mant : Int := p.1 * digitsToNat (ip ++ fr.1)
      if 0 ≤ e then some ⟨mant * (10 : Int) ^ e.toNat, fr.1.length⟩
      else some ⟨mant, fr.1.length + (-e).toNat⟩

/-- Python `float(value)` as used on the billing amount. -/
def py_float : Value → Except String DecF
  | .int n => Except.ok ⟨n, 0⟩
  | .str s =>
    match floatOfString s with
    | some q => Except.ok q
    | none => Except.error ("could not convert string to float: \x27" ++ s ++ "\x27")
  | .null => Except.error "float() argument must be a string or a real number, not \x27NoneType\x27"

/-- `safe_int` from `silver_transform.py`: `int(float(str(value).strip()))`,
`None` if anything raises; Python `int()` on a float truncates toward
zero, which on `num / 10 ^ exp` is `Int.tdiv`. -/
def safe_int (value : Value) : Option Int :=
  match floatOfString (pyStrip (pyStr value)) with
  | some q => some (q.num.tdiv ((10 : Int) ^ q.exp))
  | none => none

/-- Python `str.capitalize()` (ASCII): first character upper-cased,
the rest lower-cased. -/
def pyCapitalize (s : String) : String :=
  match s.toList with
  | [] => ""
  | c :: rest => String.mk (c.toUpper :: rest.map Char.toLower)

/-- A calendar date as produced by `pd.to_datetime(...).date()`. -/
structure Date where
  y : Nat
  m : Nat
  d : Nat
deriving DecidableEq, Repr

/-- Strict lexicographic order on dates (`a < b`). -/
def Date.ltb (a b : Date) : Bool :=
  decide (a.y < b.y ∨ (a.y = b.y ∧ (a.m < b.m ∨ (a.m = b.m ∧ a.d < b.d))))

/-- Split a character list on the dash separator. -/
def splitDash : List Char → List (List Char)
  | [] => [[]]
  | c :: rest =>
    match splitDash rest with
    | [] => [[]]
    | g :: gs => if c = '-' then [] :: g :: gs else (c :: g) :: gs

/-- ISO `YYYY-MM-DD` date parser. -/
def parseISODate (s : String) : Option Date :=
  match splitDash (stripChars s.toList) with
  | [ys, ms, ds] =>
    if ys ≠ [] ∧ ys.all Char.isDigit ∧ ms ≠ [] ∧ ms.all Char.isDigit ∧
       ds ≠ [] ∧ ds.all Char.isDigit then
      let m := digitsToNat ms
      let d := digitsToNat ds
      if 1 ≤ m ∧ m ≤ 12 ∧ 1 ≤ d ∧ d ≤ 31 then some ⟨digitsToNat ys, m, d⟩ else none
    else none
  | _ => none

/-- `pd.to_datetime(value, errors="coerce")`: bronze date columns are
staged as text, so string cells parse as ISO dates and everything else is
`NaT` (`none`); `NaT` never raises, the callers test it with `pd.isna`. -/
def pd_to_datetime : Value → Option Date
  | .str s => parseISODate s
  | _ => none

/-- `pd.isna(value)`: true exactly on null for the staged scalars. -/
def pd_isna : Value → Bool
  | .null => true
  | _ => false

/-- Canonical `silver.patients` row. -/
structure PatientRec where
  patient_id : Int
  name : Value
  gender : String
  dob : Date
  city : Value
  contact_no : Value
deriving DecidableEq, Repr

/-- Canonical `silver.doctors` row. -/
structure DoctorRec where
  doctor_id : Int
  name : Value
  specialization : Value
deriving DecidableEq, Repr

/-- Canonical `silver.appointments` row. -/
structure ApptRec where
  appointment_id : Int
  patient_id : Int
  doctor_id : Int
  appointment_date : Date
  status : String
deriving DecidableEq, Repr

/-- Canonical `silver.prescriptions` row. -/
structure PrescRec where
  prescription_id : Int
  appointment_id : Int
  medicine : String
  dosage : Value
  duration_days : Option Int
deriving DecidableEq, Repr

/-- Canonical `silver.billing` row. -/
structure BillRec where
  bill_id : Int
  patient_id : Int
  appointment_id : Int
  amount : DecF
  payment_status : String
  payment_method : Value
deriving DecidableEq, Repr

/-- One `audit.rejected_rows` entry, as written by `reject_row` in
`db.py`: source table name, the raw row as captured at failure time, and
the reason string. -/
structure Rejected where
  table_name : String
  row_data : Raw
  error_reason : String
deriving DecidableEq, Repr

/-- The body of the per-row `try` in `transform_patients`: field accesses
and checks in source order; the returned error string is `str(e)` of the
exception the source would raise there. -/
def validatePatient (today : Date) (row : Raw) : Except String PatientRec :=
  match lookupField row "patient_id" with
  | .error e => .error e
  | .ok pidV =>
  match py_int pidV with
  | .error e => .error e
  | .ok pid =>
  match lookupField row "dob" with
  | .error e => .error e
  | .ok dobV =>
  match pd_to_datetime dobV with
  | none => .error "Invalid DOB"
  | some dob =>
  if Date.ltb today dob then .error "Invalid DOB"
  else
  match lookupField row "gender" with
  | .error e => .error e
  | .ok gV =>
  let g := pyLower (pyStrip (pyStr gV))
  let gender := if g = "m" ∨ g = "male" then "M" else if g = "f" ∨ g = "female" then "F" else "Other"
  match lookupField row "name" with
  | .error e => .error e
  | .ok name =>
  match lookupField row "city" with
  | .error e => .error e
  | .ok city =>
  match lookupField row "contact_no" with
  | .error e => .error e
  | .ok contact =>
  .ok ⟨pid, name, gender, dob, city, contact⟩

/-- The body of the per-row `try` in `transform_doctors`. -/
def validateDoctor (row : Raw) : Except String DoctorRec :=
  match lookupField row "doctor_id" with
  | .error e => .error e
  | .ok didV =>
  match py_int didV with
  | .error e => .error e
  | .ok did =>
  match lookupField row "years_experience" with
  | .error e => .error e
  | .ok yeV =>
  match py_int yeV with
  | .error e => .error e
  | .ok ye =>
  if ye < 0 then .error "Negative experience not allowed"
  else
  match lookupField row "name" with
  | .error e => .error e
  | .ok name =>
  match lookupField row "specialization" with
  | .error e => .error e
  | .ok spec =>
  .ok ⟨did, name, spec⟩

/-- The body of the per-row `try` in `transform_appointments`, against the
patient / doctor key snapshots read once before the loop. -/
def validateAppointment (validPatients validDoctors : List Int) (row : Raw) :
    Except String ApptRec :=
  match lookupField row "appointment_id" with
  | .error e => .error e
  | .ok aidV =>
  match py_int aidV with
  | .error e => .error e
  | .ok aid =>
  match lookupField row "patient_id" with
  | .error e => .error e
  | .ok pidV =>
  match py_int pidV with
  | .error e => .error e
  | .ok pid =>
  match lookupField row "doctor_id" with
  | .error e => .error e
  | .ok didV =>
  match py_int didV with
  | .error e => .error e
  | .ok did =>
  match lookupField row "appointment_date" with
  | .error e => .error e
  | .ok adV =>
  match pd_to_datetime adV with
  | none => .error "Invalid appointment_date"
  | some ad =>
  if pid ∉ validPatients then .error ("Patient " ++ toString pid ++ " not found in silver.patients")
  else if did ∉ validDoctors then .error ("Doctor " ++ toString did ++ " not found in silver.doctors")
  else
  match lookupField row "status" with
  | .error e => .error e
  | .ok sV =>
  let status := pyCapitalize (pyStr sV)
  if status = "Scheduled" ∨ status = "Completed" ∨ status = "Cancelled" then
    .ok ⟨aid, pid, did, ad, status⟩
  else .error "Invalid status"

/-- The body of the per-row `try` in `transform_prescriptions`: all five
fields are read (and can raise `KeyError`) before any check runs; numeric
fields go through `safe_int`; the id checks interpolate the raw cell via
`str`. -/
def validatePrescription (validAppointments : List Int) (row : Raw) :
    Except String PrescRec :=
  match lookupField row "prescription_id" with
  | .error e => .error e
  | .ok pidV =>
  match lookupField row "appointment_id" with
  | .error e => .error e
  | .ok aidV =>
  match lookupField row "medicine" with
  | .error e => .error e
  | .ok medV =>
  match lookupField row "dosage" with
  | .error e => .error e
  | .ok dosage =>
  match lookupField row "duration_days" with
  | .error e => .error e
  | .ok durV =>
  let medicine : Option String := if pd_isna medV then none else some (pyStrip (pyStr medV))
  let duration_days := safe_int durV
  match safe_int pidV with
  | none => .error ("Invalid prescription_id: " ++ pyStr pidV)
  | some p =>
  match safe_int aidV with
  | none => .error ("Invalid or missing appointment_id: " ++ pyStr aidV)
  | some a =>
  if a ∉ validAppointments then .error ("Invalid or missing appointment_id: " ++ pyStr aidV)
  else
  match medicine with
  | none => .error "Medicine cannot be NULL or empty"
  | some m =>
  if m = "" then .error "Medicine cannot be NULL or empty"
  else .ok ⟨p, a, m, dosage, duration_days⟩

/-- The body of the per-row `try` in `transform_billing`, against the
patient / appointment key snapshots read once before the loop.  Note the
source checks the amount sign before the referential checks. -/
def validateBilling (validPatients validAppointments : List Int) (row : Raw) :
    Except String BillRec :=
  match lookupField row "bill_id" with
  | .error e => .error e
  | .ok bidV =>
  match py_int bidV with
  | .error e => .error e
  | .ok bid =>
  match lookupField row "patient_id" with
  | .error e => .error e
  | .ok pidV =>
  match py_int pidV with
  | .error e => .error e
  | .ok pid =>
  match lookupField row "appointment_id" with
  | .error e => .error e
  | .ok aidV =>
  match py_int aidV with
  | .error e => .error e
  | .ok aid =>
  match lookupField row "amount" with
  | .error e => .error e
  | .ok amV =>
  match py_float amV with
  | .error e => .error e
  | .ok amount =>
  if amount.num < 0 then .error "Negative billing amount"
  else if pid ∉ validPatients then .error ("Patient " ++ toString pid ++ " not found in silver.patients")
  else if aid ∉ validAppointments then .error ("Appointment " ++ toString aid ++ " not found in silver.appointments")
  else
  match lookupField row "payment_status" with
  | .error e => .error e
  | .ok psV =>
  let ps := pyCapitalize (pyStr psV)
  if ps = "Paid" ∨ ps = "Pending" then
    match lookupField row "payment_method" with
    | .error e => .error e
    | .ok pm => .ok ⟨bid, pid, aid, amount, ps, pm⟩
  else .error "Invalid payment_status"

/-- One iteration of the `for _, row in df.iterrows()` loop: the row is
validated inside its own `try`; success appends to `valid_rows`, an
exception appends `(row.to_dict(), str(e))` to `rejected`. -/
def stepRow (v : Raw → Except String σ) (acc : List σ × List (Raw × String)) (r : Raw) :
    List σ × List (Raw × String) :=
  match v r with
  | .ok s => (acc.1 ++ [s], acc.2)
  | .error e => (acc.1, acc.2 ++ [(r, e)])

/-- The whole per-stage row loop, starting from empty `valid_rows` and
`rejected` accumulators. -/
def processRows (v : Raw → Except String σ) (rows : List Raw) :
    List σ × List (Raw × String) :=
  rows.foldl (stepRow v) ([], [])

/-- The rows a stage admits: per-row validation outcomes, in row order. -/
def admittedOf (v : Raw → Except String σ) (rows : List Raw) : List σ :=
  rows.filterMap fun r => (v r).toOption

/-- The rows a stage rejects, each with its reason, in row order. -/
def rejectedOf (v : Raw → Except String σ) (rows : List Raw) : List (Raw × String) :=
  rows.filterMap fun r =>
    match v r with
    | .ok _ => none
    | .error e => some (r, e)

/-- `executemany "INSERT ... ON CONFLICT (<key>) DO NOTHING"`: the
parameter tuples are inserted in order, and a tuple whose primary key is
already present (in the stored table or from an earlier tuple of the same
batch) is silently skipped. -/
def insertNoConflict (key : σ → Int) (tbl : List σ) (rows : List σ) : List σ :=
  rows.foldl (fun t r => if key r ∈ t.map key then t else t ++ [r]) tbl

/-- The persistent store: the five canonical `silver` tables plus the
`audit.rejected_rows` append-only log. -/
structure DB where
  patients : List PatientRec
  doctors : List DoctorRec
  appointments : List ApptRec
  prescriptions : List PrescRec
  billing : List BillRec
  audit : List Rejected
deriving DecidableEq, Repr

/-- One committed write, in the order the source commits them: a stage's
single admitted-batch insert (`executemany` + `conn.commit()`), or one
`reject_row` call (its own `INSERT` + `conn.commit()`). -/
inductive Op where
  | insPatients (rows : List PatientRec)
  | insDoctors (rows : List DoctorRec)
  | insAppointments (rows : List ApptRec)
  | insPrescriptions (rows : List PrescRec)
  | insBilling (rows : List BillRec)
  | auditAppend (r : Rejected)
deriving DecidableEq, Repr

/-- Effect of one committed write on the store. -/
def applyOp (db : DB) : Op → DB
  | .insPatients rs => { db with patients := insertNoConflict PatientRec.patient_id db.patients rs }
  | .insDoctors rs => { db with doctors := insertNoConflict DoctorRec.doctor_id db.doctors rs }
  | .insAppointments rs => { db with appointments := insertNoConflict ApptRec.appointment_id db.appointments rs }
  | .insPrescriptions rs => { db with prescriptions := insertNoConflict PrescRec.prescription_id db.prescriptions rs }
  | .insBilling rs => { db with billing := insertNoConflict BillRec.bill_id db.billing rs }
  | .auditAppend r => { db with audit := db.audit ++ [r] }

/-- Effect of a sequence of committed writes. -/
def applyOps (ops : List Op) (db : DB) : DB := ops.foldl applyOp db

/-- The audit entry `reject_row(table, row, reason, conn)` appends. -/
def mkRejected (table : String) (p : Raw × String) : Rejected :=
  ⟨table, p.1, p.2⟩

/-- Commit sequence of `transform_patients`: the admitted batch first
(the source skips the empty `executemany`, which commits nothing either
way), then one independent audit append per rejected row. -/
def patientsOps (bronze : List Raw) (today : Date) : List Op :=
  let pr := processRows (validatePatient today) bronze
  Op.insPatients pr.1 :: pr.2.map fun p => Op.auditAppend (mkRejected "patients" p)

/-- Commit sequence of `transform_doctors`. -/
def doctorsOps (bronze : List Raw) : List Op :=
  let pr := processRows validateDoctor bronze
  Op.insDoctors pr.1 :: pr.2.map fun p => Op.auditAppend (mkRejected "doctors" p)

/-- Commit sequence of `transform_appointments`; the `valid_patients` and
`valid_doctors` snapshots are read from `db` once, before the loop. -/
def appointmentsOps (bronze : List Raw) (db : DB) : List Op :=
  let pr := processRows
    (validateAppointment (db.patients.map PatientRec.patient_id)
      (db.doctors.map DoctorRec.doctor_id)) bronze
  Op.insAppointments pr.1 :: pr.2.map fun p => Op.auditAppend (mkRejected "appointments" p)

/-- Commit sequence of `transform_prescriptions`; the
`valid_appointments_set` snapshot is read from `db` once, before the
loop. -/
def prescriptionsOps (bronze : List Raw) (db : DB) : List Op :=
  let pr := processRows
    (validatePrescription (db.appointments.map ApptRec.appointment_id)) bronze
  Op.insPrescriptions pr.1 :: pr.2.map fun p => Op.auditAppend (mkRejected "prescriptions" p)

/-- Commit sequence of `transform_billing`; the `valid_patients` and
`valid_appointments` snapshots are read from `db` once, before the
loop. -/
def billingOps (bronze : List Raw) (db : DB) : List Op :=
  let pr := processRows
    (validateBilling (db.patients.map PatientRec.patient_id)
      (db.appointments.map ApptRec.appointment_id)) bronze
  Op.insBilling pr.1 :: pr.2.map fun p => Op.auditAppend (mkRejected "billing" p)

/-- `transform_patients(conn)`: validate every `bronze.patients` row,
bulk-insert the admitted batch with conflict-ignore on `patient_id`, then
append each rejected row to the audit store. -/
def transform_patients (bronze : List Raw) (today : Date) (db : DB) : DB :=
  let pr := processRows (validatePatient today) bronze
  let db1 := { db with patients := insertNoConflict PatientRec.patient_id db.patients pr.1 }
  { db1 with audit := db1.audit ++ pr.2.map (mkRejected "patients") }

/-- `transform_doctors(conn)`. -/
def transform_doctors (bronze : List Raw) (db : DB) : DB :=
  let pr := processRows validateDoctor bronze
  let db1 := { db with doctors := insertNoConflict DoctorRec.doctor_id db.doctors pr.1 }
  { db1 with audit := db1.audit ++ pr.2.map (mkRejected "doctors") }

/-- `transform_appointments(conn)`: the patient / doctor key snapshots are
read from the committed store once, before any row is evaluated. -/
def transform_appointments (bronze : List Raw) (db : DB) : DB :=
  let pr := processRows
    (validateAppointment (db.patients.map PatientRec.patient_id)
      (db.doctors.map DoctorRec.doctor_id)) bronze
  let db1 := { db with appointments := insertNoConflict ApptRec.appointment_id db.appointments pr.1 }
  { db1 with audit := db1.audit ++ pr.2.map (mkRejected "appointments") }

/-- `transform_prescriptions(conn)`. -/
def transform_prescriptions (bronze : List Raw) (db : DB) : DB :=
  let pr := processRows
    (validatePrescription (db.appointments.map ApptRec.appointment_id)) bronze
  let db1 := { db with prescriptions := insertNoConflict PrescRec.prescription_id db.prescriptions pr.1 }
  { db1 with audit := db1.audit ++ pr.2.map (mkRejected "prescriptions") }

/-- `transform_billing(conn)`. -/
def transform_billing (bronze : List Raw) (db : DB) : DB :=
  let pr := processRows
    (validateBilling (db.patients.map PatientRec.patient_id)
      (db.appointments.map ApptRec.appointment_id)) bronze
  let db1 := { db with billing := insertNoConflict BillRec.bill_id db.billing pr.1 }
  { db1 with audit := db1.audit ++ pr.2.map (mkRejected "billing") }

/-- The five bronze staging tables one run consumes. -/
structure Bronze where
  patients : List Raw
  doctors : List Raw
  appointments : List Raw
  prescriptions : List Raw
  billing : List Raw
deriving DecidableEq, Repr

/-- `build_silver()` in `etl.py`: the five stages, in this order, each on
the store the previous one committed. -/
def build_silver (B : Bronze) (today : Date) (db : DB) : DB :=
  transform_billing B.billing
    (transform_prescriptions B.prescriptions
      (transform_appointments B.appointments
        (transform_doctors B.doctors
          (transform_patients B.patients today db))))

/-- The per-stage summary line
`"<stage> | {len(df)} rows checked | {len(valid_rows)} loaded | {len(rejected)} rejected"`,
as the triple (checked, loaded, rejected) for the patients stage. -/
def patientsStats (bronze : List Raw) (today : Date) : Nat × Nat × Nat :=
  let pr := processRows (validatePatient today) bronze
  (bronze.length, pr.1.length, pr.2.length)

/-- Summary counts of the doctors stage. -/
def doctorsStats (bronze : List Raw) : Nat × Nat × Nat :=
  let pr := processRows validateDoctor bronze
  (bronze.length, pr.1.length, pr.2.length)

/-- Summary counts of the appointments stage. -/
def appointmentsStats (bronze : List Raw) (db : DB) : Nat × Nat × Nat :=
  let pr := processRows
    (validateAppointment (db.patients.map PatientRec.patient_id)
      (db.doctors.map DoctorRec.doctor_id)) bronze
  (bronze.length, pr.1.length, pr.2.length)

/-- Summary counts of the prescriptions stage. -/
def prescriptionsStats (bronze : List Raw) (db : DB) : Nat × Nat × Nat :=
  let pr := processRows
    (validatePrescription (db.appointments.map ApptRec.appointment_id)) bronze
  (bronze.length, pr.1.length, pr.2.length)

/-- Summary counts of the billing stage. -/
def billingStats (bronze : List Raw) (db : DB) : Nat × Nat × Nat :=
  let pr := processRows
    (validateBilling (db.patients.map PatientRec.patient_id)
      (db.appointments.map ApptRec.appointment_id)) bronze
  (bronze.length, pr.1.length, pr.2.length)

/-- Equality of the five canonical tables, ignoring the audit log. -/
def SilverEq (a b : DB) : Prop :=
  a.patients = b.patients ∧ a.doctors = b.doctors ∧ a.appointments = b.appointments ∧
    a.prescriptions = b.prescriptions ∧ a.billing = b.billing

/-! ### Basic lemmas about the loop, the conflict-ignore insert and the
commit sequences -/

theorem toOption_eq_some (x : Except String σ) (s : σ) :
    x.toOption = some s ↔ x = Except.ok s := by
  cases x <;> simp [Except.toOption]

theorem stepRow_ok (v : Raw → Except String σ) (acc) (r : Raw) (s : σ)
    (h : v r = Except.ok s) : stepRow v acc r = (acc.1 ++ [s], acc.2) := by
  simp [stepRow, h]

theorem stepRow_error (v : Raw → Except String σ) (acc) (r : Raw) (e : String)
    (h : v r = Except.error e) : stepRow v acc r = (acc.1, acc.2 ++ [(r, e)]) := by
  simp [stepRow, h]

theorem processRows_go (v : Raw → Except String σ) (rows : List Raw) :
    ∀ acc : List σ × List (Raw × String),
      rows.foldl (stepRow v) acc = (acc.1 ++ admittedOf v rows, acc.2 ++ rejectedOf v rows) := by
  induction rows with
  | nil => intro acc; simp [admittedOf, rejectedOf]
  | cons r rs ih =>
    intro acc
    rw [List.foldl_cons]
    cases hv : v r with
    | ok s =>
      rw [stepRow_ok v acc r s hv, ih]
      simp [admittedOf, rejectedOf, List.filterMap_cons, hv, Except.toOption]
    | error e =>
      rw [stepRow_error v acc r e hv, ih]
      simp [admittedOf, rejectedOf, List.filterMap_cons, hv, Except.toOption]

/-- The loop decides every row by the per-row validator alone: its two
accumulators are pointwise `filterMap`s of the batch. -/
theorem processRows_eq (v : Raw → Except String σ) (rows : List Raw) :
    processRows v rows = (admittedOf v rows, rejectedOf v rows) := by
  simpa using processRows_go v rows ([], [])

theorem admittedOf_append (v : Raw → Except String σ) (l1 l2 : List Raw) :
    admittedOf v (l1 ++ l2) = admittedOf v l1 ++ admittedOf v l2 := by
  simp [admittedOf, List.filterMap_append]

theorem rejectedOf_append (v : Raw → Except String σ) (l1 l2 : List Raw) :
    rejectedOf v (l1 ++ l2) = rejectedOf v l1 ++ rejectedOf v l2 := by
  simp [rejectedOf, List.filterMap_append]

theorem admittedOf_cons_error (v : Raw → Except String σ) (r : Raw) (rs : List Raw)
    (e : String) (h : v r = Except.error e) :
    admittedOf v (r :: rs) = admittedOf v rs := by
  simp [admittedOf, List.filterMap_cons, h, Except.toOption]

theorem rejectedOf_cons_error (v : Raw → Except String σ) (r : Raw) (rs : List Raw)
    (e : String) (h : v r = Except.error e) :
    rejectedOf v (r :: rs) = (r, e) :: rejectedOf v rs := by
  simp [rejectedOf, List.filterMap_cons, h]

theorem mem_admittedOf (v : Raw → Except String σ) (rows : List Raw) (s : σ) :
    s ∈ admittedOf v rows ↔ ∃ r ∈ rows, v r = Except.ok s := by
  simp [admittedOf, List.mem_filterMap, toOption_eq_some]

theorem insertNoConflict_cons (key : σ → Int) (tbl : List σ) (r : σ) (rs : List σ) :
    insertNoConflict key tbl (r :: rs) =
      insertNoConflict key (if key r ∈ tbl.map key then tbl else tbl ++ [r]) rs := rfl

/-- Keys already stored survive the insert. -/
theorem mem_map_insertNoConflict (key : σ → Int) (tbl rows : List σ) (x : Int)
    (h : x ∈ tbl.map key) : x ∈ (insertNoConflict key tbl rows).map key := by
  induction rows generalizing tbl with
  | nil => exact h
  | cons r rs ih =>
    rw [insertNoConflict_cons]
    by_cases hk : key r ∈ tbl.map key
    · rw [if_pos hk]; exact ih tbl h
    · rw [if_neg hk]; exact ih (tbl ++ [r]) (by simp [h])

/-- After the insert, every key of the batch is stored. -/
theorem key_mem_insertNoConflict (key : σ → Int) (tbl rows : List σ) (r : σ)
    (h : r ∈ rows) : key r ∈ (insertNoConflict key tbl rows).map key := by
  induction rows generalizing tbl with
  | nil => cases h
  | cons a rs ih =>
    rw [insertNoConflict_cons]
    rcases List.mem_cons.mp h with rfl | h2
    · by_cases hk : key r ∈ tbl.map key
      · rw [if_pos hk]; exact mem_map_insertNoConflict key tbl rs (key r) hk
      · rw [if_neg hk]; exact mem_map_insertNoConflict key (tbl ++ [r]) rs (key r) (by simp)
    · exact ih _ h2

/-- A batch whose keys are all already stored is dropped whole: the table
is returned unchanged. -/
theorem insertNoConflict_noop (key : σ → Int) (tbl rows : List σ)
    (h : ∀ r ∈ rows, key r ∈ tbl.map key) : insertNoConflict key tbl rows = tbl := by
  induction rows with
  | nil => rfl
  | cons a rs ih =>
    rw [insertNoConflict_cons, if_pos (h a (by simp))]
    exact ih fun r hr => h r (by simp [hr])

/-- Provenance: a stored row either predates the insert or is a member of
the inserted batch. -/
theorem mem_insertNoConflict (key : σ → Int) (tbl rows : List σ) (x : σ)
    (h : x ∈ insertNoConflict key tbl rows) : x ∈ tbl ∨ x ∈ rows := by
  induction rows generalizing tbl with
  | nil => exact Or.inl h
  | cons a rs ih =>
    rw [insertNoConflict_cons] at h
    by_cases hk : key a ∈ tbl.map key
    · rw [if_pos hk] at h
      rcases ih tbl h with h1 | h2
      · exact Or.inl h1
      · exact Or.inr (by simp [h2])
    · rw [if_neg hk] at h
      rcases ih (tbl ++ [a]) h with h1 | h2
      · rcases List.mem_append.mp h1 with h3 | h3
        · exact Or.inl h3
        · simp only [List.mem_singleton] at h3
          exact Or.inr (by simp [h3])
      · exact Or.inr (by simp [h2])

/-- The insert adds at most one stored row per batch row. -/
theorem length_insertNoConflict_le (key : σ → Int) (tbl rows : List σ) :
    (insertNoConflict key tbl rows).length ≤ tbl.length + rows.length := by
  induction rows generalizing tbl with
  | nil => simp [insertNoConflict]
  | cons a rs ih =>
    rw [insertNoConflict_cons]
    by_cases hk : key a ∈ tbl.map key
    · rw [if_pos hk]
      have := ih tbl
      simp only [List.length_cons]
      omega
    · rw [if_neg hk]
      have := ih (tbl ++ [a])
      simp only [List.length_append, List.length_cons, List.length_nil] at this ⊢
      omega

/-- Re-inserting the same batch over a table that already absorbed it is
a no-op: every key of the batch is already stored. -/
theorem insertNoConflict_idem (key : σ → Int) (tbl rows : List σ) :
    insertNoConflict key (insertNoConflict key tbl rows) rows =
      insertNoConflict key tbl rows :=
  insertNoConflict_noop _ _ _ fun _ hx => key_mem_insertNoConflict _ _ _ _ hx

theorem applyOps_cons (op : Op) (ops : List Op) (db : DB) :
    applyOps (op :: ops) db = applyOps ops (applyOp db op) := rfl

/-- Running a list of audit appends: each one independently extends the
audit log and touches nothing else. -/
theorem applyOps_auditAppends (f : Raw × String → Rejected) (rej : List (Raw × String))
    (db : DB) :
    applyOps (rej.map fun p => Op.auditAppend (f p)) db =
      { db with audit := db.audit ++ rej.map f } := by
  induction rej generalizing db with
  | nil => simp only [List.map_nil, applyOps, List.foldl_nil, List.append_nil]
  | cons p ps ih =>
    simp only [List.map_cons, applyOps_cons]
    rw [ih]
    simp [applyOp, List.append_assoc]

/-- Running only the first `j` audit appends: the log holds exactly the
first `j` rejects, durably, whatever would come later. -/
theorem applyOps_auditAppends_take (f : Raw × String → Rejected)
    (rej : List (Raw × String)) (db : DB) (j : Nat) :
    applyOps ((rej.map fun p => Op.auditAppend (f p)).take j) db =
      { db with audit := db.audit ++ (rej.take j).map f } := by
  rw [← List.map_take]
  exact applyOps_auditAppends f (rej.take j) db

/-! ### How each stage reads and writes the store -/

@[simp] theorem tp_patients (b : List Raw) (t : Date) (db : DB) :
    (transform_patients b t db).patients =
      insertNoConflict PatientRec.patient_id db.patients (processRows (validatePatient t) b).1 := rfl

@[simp] theorem tp_doctors (b : List Raw) (t : Date) (db : DB) :
    (transform_patients b t db).doctors = db.doctors := rfl

@[simp] theorem tp_appointments (b : List Raw) (t : Date) (db : DB) :
    (transform_patients b t db).appointments = db.appointments := rfl

@[simp] theorem tp_prescriptions (b : List Raw) (t : Date) (db : DB) :
    (transform_patients b t db).prescriptions = db.prescriptions := rfl

@[simp] theorem tp_billing (b : List Raw) (t : Date) (db : DB) :
    (transform_patients b t db).billing = db.billing := rfl

@[simp] theorem tp_audit (b : List Raw) (t : Date) (db : DB) :
    (transform_patients b t db).audit =
      db.audit ++ (processRows (validatePatient t) b).2.map (mkRejected "patients") := rfl

@[simp] theorem td_doctors (b : List Raw) (db : DB) :
    (transform_doctors b db).doctors =
      insertNoConflict DoctorRec.doctor_id db.doctors (processRows validateDoctor b).1 := rfl

@[simp] theorem td_patients (b : List Raw) (db : DB) :
    (transform_doctors b db).patients = db.patients := rfl

@[simp] theorem td_appointments (b : List Raw) (db : DB) :
    (transform_doctors b db).appointments = db.appointments := rfl

@[simp] theorem td_prescriptions (b : List Raw) (db : DB) :
    (transform_doctors b db).prescriptions = db.prescriptions := rfl

@[simp] theorem td_billing (b : List Raw) (db : DB) :
    (transform_doctors b db).billing = db.billing := rfl

@[simp] theorem td_audit (b : List Raw) (db : DB) :
    (transform_doctors b db).audit =
      db.audit ++ (processRows validateDoctor b).2.map (mkRejected "doctors") := rfl

@[simp] theorem ta_appointments (b : List Raw) (db : DB) :
    (transform_appointments b db).appointments =
      insertNoConflict ApptRec.appointment_id db.appointments
        (processRows (validateAppointment (db.patients.map PatientRec.patient_id)
          (db.doctors.map DoctorRec.doctor_id)) b).1 := rfl

@[simp] theorem ta_patients (b : List Raw) (db : DB) :
    (transform_appointments b db).patients = db.patients := rfl

@[simp] theorem ta_doctors (b : List Raw) (db : DB) :
    (transform_appointments b db).doctors = db.doctors := rfl

@[simp] theorem ta_prescriptions (b : List Raw) (db : DB) :
    (transform_appointments b db).prescriptions = db.prescriptions := rfl

@[simp] theorem ta_billing (b : List Raw) (db : DB) :
    (transform_appointments b db).billing = db.billing := rfl

@[simp] theorem ta_audit (b : List Raw) (db : DB) :
    (transform_appointments b db).audit =
      db.audit ++
        (processRows (validateAppointment (db.patients.map PatientRec.patient_id)
          (db.doctors.map DoctorRec.doctor_id)) b).2.map (mkRejected "appointments") := rfl

@[simp] theorem tpr_prescriptions (b : List Raw) (db : DB) :
    (transform_prescriptions b db).prescriptions =
      insertNoConflict PrescRec.prescription_id db.prescriptions
        (processRows (validatePrescription (db.appointments.map ApptRec.appointment_id)) b).1 := rfl

@[simp] theorem tpr_patients (b : List Raw) (db : DB) :
    (transform_prescriptions b db).patients = db.patients := rfl

@[simp] theorem tpr_doctors (b : List Raw) (db : DB) :
    (transform_prescriptions b db).doctors = db.doctors := rfl

@[simp] theorem tpr_appointments (b : List Raw) (db : DB) :
    (transform_prescriptions b db).appointments = db.appointments := rfl

@[simp] theorem tpr_billing (b : List Raw) (db : DB) :
    (transform_prescriptions b db).billing = db.billing := rfl

@[simp] theorem tpr_audit (b : List Raw) (db : DB) :
    (transform_prescriptions b db).audit =
      db.audit ++
        (processRows (validatePrescription (db.appointments.map ApptRec.appointment_id)) b).2.map
          (mkRejected "prescriptions") := rfl

@[simp] theorem tb_billing (b : List Raw) (db : DB) :
    (transform_billing b db).billing =
      insertNoConflict BillRec.bill_id db.billing
        (processRows (validateBilling (db.patients.map PatientRec.patient_id)
          (db.appointments.map ApptRec.appointment_id)) b).1 := rfl

@[simp] theorem tb_patients (b : List Raw) (db : DB) :
    (transform_billing b db).patients = db.patients := rfl

@[simp] theorem tb_doctors (b : List Raw) (db : DB) :
    (transform_billing b db).doctors = db.doctors := rfl

@[simp] theorem tb_appointments (b : List Raw) (db : DB) :
    (transform_billing b db).appointments = db.appointments := rfl

@[simp] theorem tb_prescriptions (b : List Raw) (db : DB) :
    (transform_billing b db).prescriptions = db.prescriptions := rfl

@[simp] theorem tb_audit (b : List Raw) (db : DB) :
    (transform_billing b db).audit =
      db.audit ++
        (processRows (validateBilling (db.patients.map PatientRec.patient_id)
          (db.appointments.map ApptRec.appointment_id)) b).2.map (mkRejected "billing") := rfl

/-! ### Each stage is exactly its commit sequence -/

theorem transform_patients_ops (b : List Raw) (t : Date) (db : DB) :
    transform_patients b t db = applyOps (patientsOps b t) db := by
  simp only [patientsOps, applyOps_cons]
  rw [applyOps_auditAppends]
  rfl

theorem transform_doctors_ops (b : List Raw) (db : DB) :
    transform_doctors b db = applyOps (doctorsOps b) db := by
  simp only [doctorsOps, applyOps_cons]
  rw [applyOps_auditAppends]
  rfl

theorem transform_appointments_ops (b : List Raw) (db : DB) :
    transform_appointments b db = applyOps (appointmentsOps b db) db := by
  simp only [appointmentsOps, applyOps_cons]
  rw [applyOps_auditAppends]
  rfl

theorem transform_prescriptions_ops (b : List Raw) (db : DB) :
    transform_prescriptions b db = applyOps (prescriptionsOps b db) db := by
  simp only [prescriptionsOps, applyOps_cons]
  rw [applyOps_auditAppends]
  rfl

theorem transform_billing_ops (b : List Raw) (db : DB) :
    transform_billing b db = applyOps (billingOps b db) db := by
  simp only [billingOps, applyOps_cons]
  rw [applyOps_auditAppends]
  rfl

/-! ### What the per-row validators guarantee and reject -/

/-- An appointment row only validates when both its foreign keys are in
the snapshots the stage read. -/
theorem validateAppointment_ok (P D : List Int) (row : Raw) (rec : ApptRec)
    (h : validateAppointment P D row = Except.ok rec) :
    rec.patient_id ∈ P ∧ rec.doctor_id ∈ D := by
  simp only [validateAppointment] at h
  repeat' split at h
  all_goals try simp_all
  subst h
  exact ⟨by assumption, by assumption⟩

/-- A billing row only validates with a non-negative amount, a
capitalized status in the closed enum, and both foreign keys in the
snapshots. -/
theorem validateBilling_ok (P A : List Int) (row : Raw) (rec : BillRec)
    (h : validateBilling P A row = Except.ok rec) :
    0 ≤ rec.amount.num ∧ (rec.payment_status = "Paid" ∨ rec.payment_status = "Pending") ∧
      rec.patient_id ∈ P ∧ rec.appointment_id ∈ A := by
  simp only [validateBilling] at h
  repeat' split at h
  all_goals try simp_all
  subst h
  exact ⟨by assumption, by assumption, by assumption, by assumption⟩

/-- A prescription row only validates when its appointment key is in the
snapshot. -/
theorem validatePrescription_ok (A : List Int) (row : Raw) (rec : PrescRec)
    (h : validatePrescription A row = Except.ok rec) :
    rec.appointment_id ∈ A := by
  simp only [validatePrescription] at h
  repeat' split at h
  all_goals try simp_all
  subst h
  assumption

/-- An appointment row whose fields parse but whose doctor key is missing
from the snapshot is rejected with the reason naming the doctor id and
`silver.doctors`. -/
theorem validateAppointment_missing_doctor (P D : List Int) (row : Raw)
    (aV pV dV tV : Value) (aid pid did : Int) (ad : Date)
    (hA : lookupField row "appointment_id" = Except.ok aV) (ha : py_int aV = Except.ok aid)
    (hP : lookupField row "patient_id" = Except.ok pV) (hp : py_int pV = Except.ok pid)
    (hD : lookupField row "doctor_id" = Except.ok dV) (hd : py_int dV = Except.ok did)
    (hT : lookupField row "appointment_date" = Except.ok tV)
    (ht : pd_to_datetime tV = some ad)
    (hpm : pid ∈ P) (hdm : did ∉ D) :
    validateAppointment P D row =
      Except.error ("Doctor " ++ toString did ++ " not found in silver.doctors") := by
  simp [validateAppointment, hA, ha, hP, hp, hD, hd, hT, ht, hpm, hdm]

/-- A billing row whose ids parse and whose amount parses negative is
rejected with the reason `"Negative billing amount"`. -/
theorem validateBilling_negative_amount (P A : List Int) (row : Raw)
    (bV pV aV mV : Value) (bid pid aid : Int) (q : DecF)
    (hB : lookupField row "bill_id" = Except.ok bV) (hb : py_int bV = Except.ok bid)
    (hP : lookupField row "patient_id" = Except.ok pV) (hp : py_int pV = Except.ok pid)
    (hA : lookupField row "appointment_id" = Except.ok aV) (ha : py_int aV = Except.ok aid)
    (hM : lookupField row "amount" = Except.ok mV) (hm : py_float mV = Except.ok q)
    (hneg : q.num < 0) :
    validateBilling P A row = Except.error "Negative billing amount" := by
  simp [validateBilling, hB, hb, hP, hp, hA, ha, hM, hm, hneg]

/-- A patients row whose `patient_id` cell fails Python `int()` is
rejected with that exception's message. -/
theorem validatePatient_int_error (t : Date) (row : Raw) (v : Value) (e : String)
    (hL : lookupField row "patient_id" = Except.ok v) (hI : py_int v = Except.error e) :
    validatePatient t row = Except.error e := by
  simp [validatePatient, hL, hI]

/-- The prescriptions success path: both id cells coerce through
`safe_int`, the appointment key is in the snapshot, the medicine is
non-empty after trimming — and `duration_days` is stored as whatever
`safe_int` returned, `None` included; an unparsable duration is never a
rejection. -/
theorem validatePrescription_ok_shape (A : List Int) (row : Raw)
    (pV aV medV dosV durV : Value) (p a : Int) (m : String)
    (hP : lookupField row "prescription_id" = Except.ok pV)
    (hA : lookupField row "appointment_id" = Except.ok aV)
    (hM : lookupField row "medicine" = Except.ok medV)
    (hDos : lookupField row "dosage" = Except.ok dosV)
    (hDur : lookupField row "duration_days" = Except.ok durV)
    (hp : safe_int pV = some p) (ha : safe_int aV = some a) (ham : a ∈ A)
    (hnotna : pd_isna medV = false) (hm : pyStrip (pyStr medV) = m) (hne : m ≠ "") :
    validatePrescription A row = Except.ok ⟨p, a, m, dosV, safe_int durV⟩ := by
  simp [validatePrescription, hP, hA, hM, hDos, hDur, hp, ha, ham, hnotna, hm, hne]

/-- A prescriptions row whose `prescription_id` does not coerce through
`safe_int` is rejected, naming the raw cell. -/
theorem validatePrescription_bad_id (A : List Int) (row : Raw)
    (pV aV medV dosV durV : Value)
    (hP : lookupField row "prescription_id" = Except.ok pV)
    (hA : lookupField row "appointment_id" = Except.ok aV)
    (hM : lookupField row "medicine" = Except.ok medV)
    (hDos : lookupField row "dosage" = Except.ok dosV)
    (hDur : lookupField row "duration_days" = Except.ok durV)
    (hp : safe_int pV = none) :
    validatePrescription A row = Except.error ("Invalid prescription_id: " ++ pyStr pV) := by
  simp [validatePrescription, hP, hA, hM, hDos, hDur, hp]

/-- An admitted billing row stores the capitalized form of its raw
`payment_status` cell. -/
theorem validateBilling_ok_status (P A : List Int) (row : Raw) (rec : BillRec)
    (psV : Value) (hs : lookupField row "payment_status" = Except.ok psV)
    (h : validateBilling P A row = Except.ok rec) :
    rec.payment_status = pyCapitalize (pyStr psV) := by
  simp only [validateBilling] at h
  repeat' split at h
  all_goals try simp_all
  subst h
  simp_all

/-- A prescriptions row whose `appointment_id` does not coerce through
`safe_int` is rejected, naming the raw cell. -/
theorem validatePrescription_bad_appt (A : List Int) (row : Raw)
    (pV aV medV dosV durV : Value) (p : Int)
    (hP : lookupField row "prescription_id" = Except.ok pV)
    (hA : lookupField row "appointment_id" = Except.ok aV)
    (hM : lookupField row "medicine" = Except.ok medV)
    (hDos : lookupField row "dosage" = Except.ok dosV)
    (hDur : lookupField row "duration_days" = Except.ok durV)
    (hpOk : safe_int pV = some p) (ha : safe_int aV = none) :
    validatePrescription A row =
      Except.error ("Invalid or missing appointment_id: " ++ pyStr aV) := by
  simp [validatePrescription, hP, hA, hM, hDos, hDur, hpOk, ha]

/-- A parsed float with non-negative numerator has non-negative value. -/
theorem DecF.toRat_nonneg (q : DecF) (h : 0 ≤ q.num) : 0 ≤ q.toRat := by
  unfold DecF.toRat
  have h1 : (0 : Rat) ≤ (q.num : Rat) := by exact_mod_cast h
  have h2 : (0 : Rat) ≤ (10 : Rat) ^ q.exp := by positivity
  exact div_nonneg h1 h2

theorem processRows_fst (v : Raw → Except String σ) (rows : List Raw) :
    (processRows v rows).1 = admittedOf v rows := by
  rw [processRows_eq]

theorem processRows_snd (v : Raw → Except String σ) (rows : List Raw) :
    (processRows v rows).2 = rejectedOf v rows := by
  rw [processRows_eq]

theorem mem_rejectedOf_of (v : Raw → Except String σ) (rows : List Raw) (r : Raw)
    (e : String) (hr : r ∈ rows) (he : v r = Except.error e) :
    (r, e) ∈ rejectedOf v rows := by
  rw [rejectedOf, List.mem_filterMap]
  exact ⟨r, hr, by simp [he]⟩

/-- A stage's canonical output depends on the input store only through
its canonical tables, never through the audit log. -/
theorem tp_congr (b : List Raw) (t : Date) (db db' : DB) (h : SilverEq db db') :
    SilverEq (transform_patients b t db) (transform_patients b t db') := by
  obtain ⟨h1, h2, h3, h4, h5⟩ := h
  exact ⟨by simp [h1], by simp [h2], by simp [h3], by simp [h4], by simp [h5]⟩

theorem td_congr (b : List Raw) (db db' : DB) (h : SilverEq db db') :
    SilverEq (transform_doctors b db) (transform_doctors b db') := by
  obtain ⟨h1, h2, h3, h4, h5⟩ := h
  exact ⟨by simp [h1], by simp [h2], by simp [h3], by simp [h4], by simp [h5]⟩

theorem ta_congr (b : List Raw) (db db' : DB) (h : SilverEq db db') :
    SilverEq (transform_appointments b db) (transform_appointments b db') := by
  obtain ⟨h1, h2, h3, h4, h5⟩ := h
  exact ⟨by simp [h1], by simp [h2], by simp [h1, h2, h3], by simp [h4], by simp [h5]⟩

theorem tpr_congr (b : List Raw) (db db' : DB) (h : SilverEq db db') :
    SilverEq (transform_prescriptions b db) (transform_prescriptions b db') := by
  obtain ⟨h1, h2, h3, h4, h5⟩ := h
  exact ⟨by simp [h1], by simp [h2], by simp [h3], by simp [h3, h4], by simp [h5]⟩

theorem tb_congr (b : List Raw) (db db' : DB) (h : SilverEq db db') :
    SilverEq (transform_billing b db) (transform_billing b db') := by
  obtain ⟨h1, h2, h3, h4, h5⟩ := h
  exact ⟨by simp [h1], by simp [h2], by simp [h3], by simp [h4], by simp [h1, h3, h5]⟩

/-- Canonical-table congruence for the whole silver run. -/
theorem build_silver_congr (B : Bronze) (today : Date) (db db' : DB)
    (h : SilverEq db db') :
    SilverEq (build_silver B today db) (build_silver B today db') :=
  tb_congr _ _ _ (tpr_congr _ _ _ (ta_congr _ _ _ (td_congr _ _ _ (tp_congr _ _ _ _ h))))

/-- Running any prefix of a stage's commit sequence that contains the
leading batch insert: the canonical write is in place, and the audit log
holds exactly the rejects whose appends already committed. -/
theorem applyOps_stage_take (op : Op) (rej : List (Raw × String)) (tbl : String)
    (db : DB) (k : Nat) :
    applyOps ((op :: rej.map fun p => Op.auditAppend (mkRejected tbl p)).take (k + 1)) db =
      { applyOp db op with
          audit := (applyOp db op).audit ++ (rej.take k).map (mkRejected tbl) } := by
  rw [List.take_succ_cons, applyOps_cons, applyOps_auditAppends_take]

/-! ### The claims -/

/-- A fixed "today" for concrete runs. -/
def wDate : Date := ⟨2024, 1, 1⟩

/-- A committed canonical patient, key 1. -/
def wPatient : PatientRec := ⟨1, Value.str "Alice", "F", ⟨2000, 1, 1⟩, Value.str "Pune", Value.str "111"⟩

/-- A committed canonical doctor, key 2. -/
def wDoctor : DoctorRec := ⟨2, Value.str "Bob", Value.str "ENT"⟩

/-- A committed canonical appointment, key 7. -/
def wAppt : ApptRec := ⟨7, 1, 2, ⟨2024, 2, 2⟩, "Scheduled"⟩

/-- A store holding patient 1 and doctor 2. -/
def dbW : DB := ⟨[wPatient], [wDoctor], [], [], [], []⟩

/-- A store holding patient 1, doctor 2 and appointment 7. -/
def dbW2 : DB := ⟨[wPatient], [wDoctor], [wAppt], [], [], []⟩

/-- A bronze appointment row referencing the absent doctor 9999. -/
def rowDoc9999 : Raw :=
  [("appointment_id", Value.int 7), ("patient_id", Value.int 1),
   ("doctor_id", Value.int 9999), ("appointment_date", Value.str "2024-02-02"),
   ("status", Value.str "scheduled")]

/-- An empty store. -/
def dbEmpty : DB := ⟨[], [], [], [], [], []⟩

/-- A bronze billing row with amount `-50.00`. -/
def rowBillNeg : Raw :=
  [("bill_id", Value.int 3), ("patient_id", Value.int 1),
   ("appointment_id", Value.int 7), ("amount", Value.str "-50.00"),
   ("payment_status", Value.str "paid"), ("payment_method", Value.str "cash")]

/-- A bronze prescription row whose `duration_days` is unparsable. -/
def rowPrescAbc : Raw :=
  [("prescription_id", Value.str "000042"), ("appointment_id", Value.str "7.0"),
   ("medicine", Value.str " Advil "), ("dosage", Value.str "2x"),
   ("duration_days", Value.str "abc")]

/-- A bronze patient row whose `patient_id` is the float-formatted string
`"46601.0"`. -/
def rowPat466 : Raw :=
  [("patient_id", Value.str "46601.0"), ("name", Value.str "A"),
   ("gender", Value.str "m"), ("dob", Value.str "2000-01-01"),
   ("city", Value.str "X"), ("contact_no", Value.str "1")]

/-- A valid bronze patient row whose key 1 is already committed in `dbW`. -/
def rowPat1 : Raw :=
  [("patient_id", Value.int 1), ("dob", Value.str "2001-06-06"),
   ("gender", Value.str "f"), ("name", Value.str "Zoe"),
   ("city", Value.str "Goa"), ("contact_no", Value.str "9")]

/-- A valid bronze doctor row, key 2. -/
def rowDocB : Raw :=
  [("doctor_id", Value.int 2), ("years_experience", Value.int 5),
   ("name", Value.str "Bob"), ("specialization", Value.str "ENT")]

/-- A valid bronze appointment row, key 7, referencing patient 1 and
doctor 2. -/
def rowApptB : Raw :=
  [("appointment_id", Value.int 7), ("patient_id", Value.int 1),
   ("doctor_id", Value.int 2), ("appointment_date", Value.str "2024-02-02"),
   ("status", Value.str "scheduled")]

/-- A small bronze staging set: one patient, one doctor, one appointment. -/
def wBronze : Bronze := ⟨[rowPat1], [rowDocB], [rowApptB], [], []⟩

/-- Claim C2: every appointment row in the canonical table after the
appointments stage either predates the stage or carries a `patient_id`
from the committed `silver.patients` key set and a `doctor_id` from the
committed `silver.doctors` key set read when the stage ran; and a bronze
row whose fields parse but whose doctor id (e.g. 9999) is absent from the
doctor set is rejected with a reason naming that doctor id and
`silver.doctors`, lands in the audit store, and contributes no canonical
appointment row. -/
theorem C2_appointments_referential_integrity (bronze : List Raw) (db : DB)
    (row : Raw) (aV pV dV tV : Value) (aid pid did : Int) (ad : Date)
    (hrow : row ∈ bronze)
    (hA : lookupField row "appointment_id" = Except.ok aV) (ha : py_int aV = Except.ok aid)
    (hP : lookupField row "patient_id" = Except.ok pV) (hp : py_int pV = Except.ok pid)
    (hD : lookupField row "doctor_id" = Except.ok dV) (hd : py_int dV = Except.ok did)
    (hT : lookupField row "appointment_date" = Except.ok tV)
    (ht : pd_to_datetime tV = some ad)
    (hpm : pid ∈ db.patients.map PatientRec.patient_id)
    (hdm : did ∉ db.doctors.map DoctorRec.doctor_id) :
    (∀ rec ∈ (transform_appointments bronze db).appointments,
        rec ∈ db.appointments ∨
          (rec.patient_id ∈ db.patients.map PatientRec.patient_id ∧
            rec.doctor_id ∈ db.doctors.map DoctorRec.doctor_id ∧
            ∃ r ∈ bronze,
              validateAppointment (db.patients.map PatientRec.patient_id)
                (db.doctors.map DoctorRec.doctor_id) r = Except.ok rec)) ∧
      validateAppointment (db.patients.map PatientRec.patient_id)
          (db.doctors.map DoctorRec.doctor_id) row =
        Except.error ("Doctor " ++ toString did ++ " not found in silver.doctors") ∧
      Rejected.mk "appointments" row
          ("Doctor " ++ toString did ++ " not found in silver.doctors") ∈
        (transform_appointments bronze db).audit := by
  have herr := validateAppointment_missing_doctor
    (db.patients.map PatientRec.patient_id) (db.doctors.map DoctorRec.doctor_id)
    row aV pV dV tV aid pid did ad hA ha hP hp hD hd hT ht hpm hdm
  refine ⟨?_, herr, ?_⟩
  · intro rec hrec
    rw [ta_appointments] at hrec
    rcases mem_insertNoConflict _ _ _ _ hrec with h1 | h2
    · exact Or.inl h1
    · rw [processRows_fst] at h2
      rcases (mem_admittedOf _ _ _).mp h2 with ⟨r, hr, hok⟩
      rcases validateAppointment_ok _ _ _ _ hok with ⟨hfk1, hfk2⟩
      exact Or.inr ⟨hfk1, hfk2, r, hr, hok⟩
  · rw [ta_audit, List.mem_append]
    refine Or.inr ?_
    rw [List.mem_map]
    refine ⟨(row, "Doctor " ++ toString did ++ " not found in silver.doctors"), ?_, rfl⟩
    rw [processRows_snd]
    exact mem_rejectedOf_of _ _ _ _ hrow herr

/-- Claim C8: every billing row in the canonical table after the billing
stage either predates the stage or has a non-negative amount, a
`payment_status` in {Paid, Pending} obtained by capitalizing the raw
cell, and comes from some admitted bronze row; and a bronze row whose ids
parse but whose amount parses negative (e.g. -50.00) is rejected with
reason "Negative billing amount", lands in the audit store, and
contributes no canonical row. -/
theorem C8_billing_amount_and_status (bronze : List Raw) (db : DB)
    (row : Raw) (bV pV aV mV : Value) (bid pid aid : Int) (q : DecF)
    (hrow : row ∈ bronze)
    (hB : lookupField row "bill_id" = Except.ok bV) (hb : py_int bV = Except.ok bid)
    (hP : lookupField row "patient_id" = Except.ok pV) (hp : py_int pV = Except.ok pid)
    (hA : lookupField row "appointment_id" = Except.ok aV) (ha : py_int aV = Except.ok aid)
    (hM : lookupField row "amount" = Except.ok mV) (hm : py_float mV = Except.ok q)
    (hneg : q.num < 0) :
    (∀ rec ∈ (transform_billing bronze db).billing,
        rec ∈ db.billing ∨
          (0 ≤ rec.amount.toRat ∧
            (rec.payment_status = "Paid" ∨ rec.payment_status = "Pending") ∧
            ∃ r ∈ bronze,
              validateBilling (db.patients.map PatientRec.patient_id)
                (db.appointments.map ApptRec.appointment_id) r = Except.ok rec)) ∧
      (∀ r ∈ bronze, ∀ psV rec,
          lookupField r "payment_status" = Except.ok psV →
          validateBilling (db.patients.map PatientRec.patient_id)
              (db.appointments.map ApptRec.appointment_id) r = Except.ok rec →
          rec.payment_status = pyCapitalize (pyStr psV)) ∧
      validateBilling (db.patients.map PatientRec.patient_id)
          (db.appointments.map ApptRec.appointment_id) row =
        Except.error "Negative billing amount" ∧
      Rejected.mk "billing" row "Negative billing amount" ∈
        (transform_billing bronze db).audit := by
  have herr := validateBilling_negative_amount
    (db.patients.map PatientRec.patient_id) (db.appointments.map ApptRec.appointment_id)
    row bV pV aV mV bid pid aid q hB hb hP hp hA ha hM hm hneg
  refine ⟨?_, ?_, herr, ?_⟩
  · intro rec hrec
    rw [tb_billing] at hrec
    rcases mem_insertNoConflict _ _ _ _ hrec with h1 | h2
    · exact Or.inl h1
    · rw [processRows_fst] at h2
      rcases (mem_admittedOf _ _ _).mp h2 with ⟨r, hr, hok⟩
      rcases validateBilling_ok _ _ _ _ hok with ⟨hamt, hst, _, _⟩
      exact Or.inr ⟨DecF.toRat_nonneg _ hamt, hst, r, hr, hok⟩
  · intro r _ psV rec hps hok
    exact validateBilling_ok_status _ _ _ _ _ hps hok
  · rw [tb_audit, List.mem_append]
    refine Or.inr ?_
    rw [List.mem_map]
    refine ⟨(row, "Negative billing amount"), ?_, rfl⟩
    rw [processRows_snd]
    exact mem_rejectedOf_of _ _ _ _ hrow herr

/-- Concrete instance of claim C8: billing amount -50.00 rejected with
reason "Negative billing amount", audited, no row inserted. -/
theorem C8_witness :
    (-5000 : Int) < 0 ∧
      validateBilling (dbW2.patients.map PatientRec.patient_id)
          (dbW2.appointments.map ApptRec.appointment_id) rowBillNeg =
        Except.error "Negative billing amount" ∧
      Rejected.mk "billing" rowBillNeg "Negative billing amount" ∈
        (transform_billing [rowBillNeg] dbW2).audit :=
  ⟨by decide,
    (C8_billing_amount_and_status [rowBillNeg] dbW2 rowBillNeg
      (Value.int 3) (Value.int 1) (Value.int 7) (Value.str "-50.00")
      3 1 7 ⟨-5000, 2⟩ (by decide) rfl rfl rfl rfl rfl rfl rfl (by exact rfl)
      (by decide)).2.2⟩

/-- Claim C10: in the prescriptions stage an unparsable `duration_days`
never rejects a row — a row whose ids coerce, whose appointment is in the
snapshot and whose medicine is non-empty after trimming is admitted with
`duration_days` silently coerced to `None` — while the same unparsable
input in `prescription_id` or `appointment_id` rejects the row. -/
theorem C10_duration_days_never_rejects (bronze : List Raw) (db : DB) (row : Raw)
    (pV aV medV dosV durV : Value) (p a : Int) (m : String)
    (hrow : row ∈ bronze)
    (hP : lookupField row "prescription_id" = Except.ok pV)
    (hA : lookupField row "appointment_id" = Except.ok aV)
    (hM : lookupField row "medicine" = Except.ok medV)
    (hDos : lookupField row "dosage" = Except.ok dosV)
    (hDur : lookupField row "duration_days" = Except.ok durV)
    (hp : safe_int pV = some p) (ha : safe_int aV = some a)
    (ham : a ∈ db.appointments.map ApptRec.appointment_id)
    (hnotna : pd_isna medV = false) (hm : pyStrip (pyStr medV) = m) (hne : m ≠ "")
    (hdur : safe_int durV = none) :
    validatePrescription (db.appointments.map ApptRec.appointment_id) row =
        Except.ok ⟨p, a, m, dosV, none⟩ ∧
      (⟨p, a, m, dosV, none⟩ : PrescRec) ∈
        (processRows (validatePrescription (db.appointments.map ApptRec.appointment_id))
          bronze).1 ∧
      safe_int (Value.str "abc") = none ∧
      (∀ (row2 : Raw) (pV2 aV2 medV2 dosV2 durV2 : Value),
          lookupField row2 "prescription_id" = Except.ok pV2 →
          lookupField row2 "appointment_id" = Except.ok aV2 →
          lookupField row2 "medicine" = Except.ok medV2 →
          lookupField row2 "dosage" = Except.ok dosV2 →
          lookupField row2 "duration_days" = Except.ok durV2 →
          safe_int pV2 = none →
          validatePrescription (db.appointments.map ApptRec.appointment_id) row2 =
            Except.error ("Invalid prescription_id: " ++ pyStr pV2)) ∧
      (∀ (row2 : Raw) (pV2 aV2 medV2 dosV2 durV2 : Value) (p2 : Int),
          lookupField row2 "prescription_id" = Except.ok pV2 →
          lookupField row2 "appointment_id" = Except.ok aV2 →
          lookupField row2 "medicine" = Except.ok medV2 →
          lookupField row2 "dosage" = Except.ok dosV2 →
          lookupField row2 "duration_days" = Except.ok durV2 →
          safe_int pV2 = some p2 → safe_int aV2 = none →
          validatePrescription (db.appointments.map ApptRec.appointment_id) row2 =
            Except.error ("Invalid or missing appointment_id: " ++ pyStr aV2)) := by
  have hok := validatePrescription_ok_shape (db.appointments.map ApptRec.appointment_id)
    row pV aV medV dosV durV p a m hP hA hM hDos hDur hp ha ham hnotna hm hne
  rw [hdur] at hok
  refine ⟨hok, ?_, by decide, ?_, ?_⟩
  · rw [processRows_fst]
    exact (mem_admittedOf _ _ _).mpr ⟨row, hrow, hok⟩
  · intro row2 pV2 aV2 medV2 dosV2 durV2 h1 h2 h3 h4 h5 h6
    exact validatePrescription_bad_id _ row2 pV2 aV2 medV2 dosV2 durV2 h1 h2 h3 h4 h5 h6
  · intro row2 pV2 aV2 medV2 dosV2 durV2 p2 h1 h2 h3 h4 h5 h6 h7
    exact validatePrescription_bad_appt _ row2 pV2 aV2 medV2 dosV2 durV2 p2 h1 h2 h3 h4 h5 h6 h7

/-- Concrete instance of claim C10: `duration_days = "abc"` coerces to
`None` and the row is admitted (ids "000042" and "7.0" coerce to 42 and
7, appointment 7 present). -/
theorem C10_witness :
    safe_int (Value.str "abc") = none ∧
      validatePrescription (dbW2.appointments.map ApptRec.appointment_id) rowPrescAbc =
        Except.ok ⟨42, 7, "Advil", Value.str "2x", none⟩ ∧
      (⟨42, 7, "Advil", Value.str "2x", none⟩ : PrescRec) ∈
        (processRows (validatePrescription (dbW2.appointments.map ApptRec.appointment_id))
          [rowPrescAbc]).1 :=
  ⟨by decide,
    (C10_duration_days_never_rejects [rowPrescAbc] dbW2 rowPrescAbc
      (Value.str "000042") (Value.str "7.0") (Value.str " Advil ") (Value.str "2x")
      (Value.str "abc") 42 7 "Advil" (by decide) rfl rfl rfl rfl rfl (by decide)
      (by decide) (by decide) (by decide) (by decide) (by decide) (by decide)).1,
    (C10_duration_days_never_rejects [rowPrescAbc] dbW2 rowPrescAbc
      (Value.str "000042") (Value.str "7.0") (Value.str " Advil ") (Value.str "2x")
      (Value.str "abc") 42 7 "Advil" (by decide) rfl rfl rfl rfl rfl (by decide)
      (by decide) (by decide) (by decide) (by decide) (by decide) (by decide)).2.1⟩

/-- Claim C4 as stated is false: the patients stage parses `patient_id`
with Python `int()`, so the string "46601.0" is not coerced to 46601 —
the row is rejected and nothing is inserted. -/
theorem C4_counterexample :
    validatePatient wDate rowPat466 =
        Except.error "invalid literal for int() with base 10: \x2746601.0\x27" ∧
      (transform_patients [rowPat466] wDate dbEmpty).patients = [] ∧
      (transform_patients [rowPat466] wDate dbEmpty).audit =
        [⟨"patients", rowPat466,
          "invalid literal for int() with base 10: \x2746601.0\x27"⟩] := by
  refine ⟨by exact rfl, by decide, by decide⟩

/-- Claim C4, amended: only the prescriptions stage coerces numeric
fields through the float-then-truncate `safe_int` ("000123" → 123,
"46601.0" → 46601; an uncoercible `prescription_id` rejects the row);
the other stages parse ids with Python `int()`, which accepts "000123"
but rejects "46601.0" as a violation. -/
theorem C4_amended_numeric_coercion :
    safe_int (Value.str "000123") = some 123 ∧
      safe_int (Value.str "46601.0") = some 46601 ∧
      py_int (Value.str "000123") = Except.ok 123 ∧
      py_int (Value.str "46601.0") =
        Except.error "invalid literal for int() with base 10: \x2746601.0\x27" ∧
      (∀ (t : Date) (row : Raw) (v : Value) (e : String),
          lookupField row "patient_id" = Except.ok v → py_int v = Except.error e →
          validatePatient t row = Except.error e) ∧
      (∀ (A : List Int) (row : Raw) (pV aV medV dosV durV : Value),
          lookupField row "prescription_id" = Except.ok pV →
          lookupField row "appointment_id" = Except.ok aV →
          lookupField row "medicine" = Except.ok medV →
          lookupField row "dosage" = Except.ok dosV →
          lookupField row "duration_days" = Except.ok durV →
          safe_int pV = none →
          validatePrescription A row =
            Except.error ("Invalid prescription_id: " ++ pyStr pV)) := by
  refine ⟨by decide, by decide, by exact rfl, by exact rfl, ?_, ?_⟩
  · intro t row v e h1 h2
    exact validatePatient_int_error t row v e h1 h2
  · intro A row pV aV medV dosV durV h1 h2 h3 h4 h5 h6
    exact validatePrescription_bad_id A row pV aV medV dosV durV h1 h2 h3 h4 h5 h6

/-- Concrete instance of the amended claim C4: the patients stage rejects
a "46601.0" id through `int()`. -/
theorem C4_witness :
    lookupField rowPat466 "patient_id" = Except.ok (Value.str "46601.0") ∧
      py_int (Value.str "46601.0") =
        Except.error "invalid literal for int() with base 10: \x2746601.0\x27" ∧
      validatePatient wDate rowPat466 =
        Except.error "invalid literal for int() with base 10: \x2746601.0\x27" :=
  ⟨rfl, by exact rfl,
    C4_amended_numeric_coercion.2.2.2.2.1 wDate rowPat466 (Value.str "46601.0")
      "invalid literal for int() with base 10: \x2746601.0\x27" rfl (by exact rfl)⟩

/-- Claim C9 as stated is false: re-loading a bronze patient row whose
key 1 is already committed reports `loaded = 1` (the length of
`valid_rows`) even though the conflict-ignore insert stores zero new
rows. -/
theorem C9_counterexample :
    (patientsStats [rowPat1] wDate).2.1 = 1 ∧
      (transform_patients [rowPat1] wDate dbW).patients.length = dbW.patients.length ∧
      dbW.patients.length = 1 ∧ (1 : Nat) ≠ 0 := by
  decide

/-- Claim C9, amended: the per-stage "loaded" figure counts the rows
admitted by validation and handed to the writer (`len(valid_rows)`), not
the rows the writer actually inserts; admitted rows skipped as duplicate
keys are still counted, so the table grows by at most "loaded". -/
theorem C9_amended_loaded_counts (today : Date) (db : DB)
    (bp bd ba bpr bb : List Raw) :
    (patientsStats bp today).2.1 = (processRows (validatePatient today) bp).1.length ∧
      (transform_patients bp today db).patients.length ≤
        db.patients.length + (patientsStats bp today).2.1 ∧
      (doctorsStats bd).2.1 = (processRows validateDoctor bd).1.length ∧
      (transform_doctors bd db).doctors.length ≤
        db.doctors.length + (doctorsStats bd).2.1 ∧
      (appointmentsStats ba db).2.1 =
        (processRows (validateAppointment (db.patients.map PatientRec.patient_id)
          (db.doctors.map DoctorRec.doctor_id)) ba).1.length ∧
      (transform_appointments ba db).appointments.length ≤
        db.appointments.length + (appointmentsStats ba db).2.1 ∧
      (prescriptionsStats bpr db).2.1 =
        (processRows (validatePrescription (db.appointments.map ApptRec.appointment_id))
          bpr).1.length ∧
      (transform_prescriptions bpr db).prescriptions.length ≤
        db.prescriptions.length + (prescriptionsStats bpr db).2.1 ∧
      (billingStats bb db).2.1 =
        (processRows (validateBilling (db.patients.map PatientRec.patient_id)
          (db.appointments.map ApptRec.appointment_id)) bb).1.length ∧
      (transform_billing bb db).billing.length ≤
        db.billing.length + (billingStats bb db).2.1 := by
  refine ⟨rfl, ?_, rfl, ?_, rfl, ?_, rfl, ?_, rfl, ?_⟩
  · rw [tp_patients]
    exact length_insertNoConflict_le _ _ _
  · rw [td_doctors]
    exact length_insertNoConflict_le _ _ _
  · rw [ta_appointments]
    exact length_insertNoConflict_le _ _ _
  · rw [tpr_prescriptions]
    exact length_insertNoConflict_le _ _ _
  · rw [tb_billing]
    exact length_insertNoConflict_le _ _ _

/-- Claim C5: in each referential stage the dependency key sets are the
ones read from the committed store before the loop; every candidate is
decided by the per-row validator against that fixed snapshot alone, so
the batch outcome is a pointwise `filterMap` and splits over batch
concatenation — the outcome of a candidate never depends on its
siblings. -/
theorem C5_snapshot_once_per_stage (db : DB) (ba bpr bb B1 B2 : List Raw) :
    processRows (validateAppointment (db.patients.map PatientRec.patient_id)
        (db.doctors.map DoctorRec.doctor_id)) ba =
      (admittedOf (validateAppointment (db.patients.map PatientRec.patient_id)
          (db.doctors.map DoctorRec.doctor_id)) ba,
        rejectedOf (validateAppointment (db.patients.map PatientRec.patient_id)
          (db.doctors.map DoctorRec.doctor_id)) ba) ∧
      (transform_appointments ba db).appointments =
        insertNoConflict ApptRec.appointment_id db.appointments
          (admittedOf (validateAppointment (db.patients.map PatientRec.patient_id)
            (db.doctors.map DoctorRec.doctor_id)) ba) ∧
      admittedOf (validateAppointment (db.patients.map PatientRec.patient_id)
          (db.doctors.map DoctorRec.doctor_id)) (B1 ++ B2) =
        admittedOf (validateAppointment (db.patients.map PatientRec.patient_id)
            (db.doctors.map DoctorRec.doctor_id)) B1 ++
          admittedOf (validateAppointment (db.patients.map PatientRec.patient_id)
            (db.doctors.map DoctorRec.doctor_id)) B2 ∧
      rejectedOf (validateAppointment (db.patients.map PatientRec.patient_id)
          (db.doctors.map DoctorRec.doctor_id)) (B1 ++ B2) =
        rejectedOf (validateAppointment (db.patients.map PatientRec.patient_id)
            (db.doctors.map DoctorRec.doctor_id)) B1 ++
          rejectedOf (validateAppointment (db.patients.map PatientRec.patient_id)
            (db.doctors.map DoctorRec.doctor_id)) B2 ∧
      processRows (validatePrescription (db.appointments.map ApptRec.appointment_id)) bpr =
        (admittedOf (validatePrescription (db.appointments.map ApptRec.appointment_id)) bpr,
          rejectedOf (validatePrescription (db.appointments.map ApptRec.appointment_id)) bpr) ∧
      (transform_prescriptions bpr db).prescriptions =
        insertNoConflict PrescRec.prescription_id db.prescriptions
          (admittedOf (validatePrescription (db.appointments.map ApptRec.appointment_id)) bpr) ∧
      admittedOf (validatePrescription (db.appointments.map ApptRec.appointment_id))
          (B1 ++ B2) =
        admittedOf (validatePrescription (db.appointments.map ApptRec.appointment_id)) B1 ++
          admittedOf (validatePrescription (db.appointments.map ApptRec.appointment_id)) B2 ∧
      processRows (validateBilling (db.patients.map PatientRec.patient_id)
          (db.appointments.map ApptRec.appointment_id)) bb =
        (admittedOf (validateBilling (db.patients.map PatientRec.patient_id)
            (db.appointments.map ApptRec.appointment_id)) bb,
          rejectedOf (validateBilling (db.patients.map PatientRec.patient_id)
            (db.appointments.map ApptRec.appointment_id)) bb) ∧
      (transform_billing bb db).billing =
        insertNoConflict BillRec.bill_id db.billing
          (admittedOf (validateBilling (db.patients.map PatientRec.patient_id)
            (db.appointments.map ApptRec.appointment_id)) bb) ∧
      admittedOf (validateBilling (db.patients.map PatientRec.patient_id)
          (db.appointments.map ApptRec.appointment_id)) (B1 ++ B2) =
        admittedOf (validateBilling (db.patients.map PatientRec.patient_id)
            (db.appointments.map ApptRec.appointment_id)) B1 ++
          admittedOf (validateBilling (db.patients.map PatientRec.patient_id)
            (db.appointments.map ApptRec.appointment_id)) B2 := by
  refine ⟨processRows_eq _ _, ?_, admittedOf_append _ _ _, rejectedOf_append _ _ _,
    processRows_eq _ _, ?_, admittedOf_append _ _ _,
    processRows_eq _ _, ?_, admittedOf_append _ _ _⟩
  · rw [ta_appointments, processRows_fst]
  · rw [tpr_prescriptions, processRows_fst]
  · rw [tb_billing, processRows_fst]

/-- Claim C6: per-row validation is total — a failing row becomes an
audit record carrying its reason and the raw row unchanged, the canonical
output of its stage is exactly what it would be without that row, and the
canonical tables of the whole run (hence every later stage) are unchanged
by its presence.  Shown for a failing patients row inside an arbitrary
batch and pipeline, and for a failing billing row inside an arbitrary
batch. -/
theorem C6_row_failure_isolated (today : Date) (db : DB) (r rb : Raw) (e eb : String)
    (B1 B2 D1 D2 : List Raw) (B : Bronze)
    (hpe : validatePatient today r = Except.error e)
    (hbe : validateBilling (db.patients.map PatientRec.patient_id)
      (db.appointments.map ApptRec.appointment_id) rb = Except.error eb)
    (hB : B.patients = B1 ++ r :: B2) :
    (transform_patients (B1 ++ r :: B2) today db).patients =
        (transform_patients (B1 ++ B2) today db).patients ∧
      Rejected.mk "patients" r e ∈ (transform_patients (B1 ++ r :: B2) today db).audit ∧
      (transform_billing (D1 ++ rb :: D2) db).billing =
        (transform_billing (D1 ++ D2) db).billing ∧
      Rejected.mk "billing" rb eb ∈ (transform_billing (D1 ++ rb :: D2) db).audit ∧
      SilverEq (build_silver B today db)
        (build_silver { B with patients := B1 ++ B2 } today db) := by
  have hadmP : admittedOf (validatePatient today) (B1 ++ r :: B2) =
      admittedOf (validatePatient today) (B1 ++ B2) := by
    rw [admittedOf_append, admittedOf_cons_error _ _ _ _ hpe, admittedOf_append]
  have hpat : (transform_patients (B1 ++ r :: B2) today db).patients =
      (transform_patients (B1 ++ B2) today db).patients := by
    rw [tp_patients, tp_patients, processRows_fst, processRows_fst, hadmP]
  refine ⟨hpat, ?_, ?_, ?_, ?_⟩
  · rw [tp_audit, List.mem_append]
    refine Or.inr ?_
    rw [List.mem_map]
    refine ⟨(r, e), ?_, rfl⟩
    rw [processRows_snd]
    exact mem_rejectedOf_of _ _ _ _ (by simp) hpe
  · have hadmB : admittedOf (validateBilling (db.patients.map PatientRec.patient_id)
        (db.appointments.map ApptRec.appointment_id)) (D1 ++ rb :: D2) =
        admittedOf (validateBilling (db.patients.map PatientRec.patient_id)
          (db.appointments.map ApptRec.appointment_id)) (D1 ++ D2) := by
      rw [admittedOf_append, admittedOf_cons_error _ _ _ _ hbe, admittedOf_append]
    rw [tb_billing, tb_billing, processRows_fst, processRows_fst, hadmB]
  · rw [tb_audit, List.mem_append]
    refine Or.inr ?_
    rw [List.mem_map]
    refine ⟨(rb, eb), ?_, rfl⟩
    rw [processRows_snd]
    exact mem_rejectedOf_of _ _ _ _ (by simp) hbe
  · have hS : SilverEq (transform_patients B.patients today db)
        (transform_patients (B1 ++ B2) today db) := by
      rw [hB]
      exact ⟨hpat, rfl, rfl, rfl, rfl⟩
    exact tb_congr _ _ _ (tpr_congr _ _ _ (ta_congr _ _ _ (td_congr _ _ _ hS)))

/-- Concrete instance of claim C6: a patients row with an unparsable id
and a billing row with a missing column are each audited with the raw row
preserved, and the canonical tables of the run are as if they were
absent. -/
theorem C6_witness :
    validatePatient wDate rowPat466 =
        Except.error "invalid literal for int() with base 10: \x2746601.0\x27" ∧
      Rejected.mk "patients" rowPat466
          "invalid literal for int() with base 10: \x2746601.0\x27" ∈
        (transform_patients ([] ++ rowPat466 :: []) wDate dbW).audit ∧
      SilverEq (build_silver ⟨[] ++ rowPat466 :: [], [], [], [], []⟩ wDate dbW)
        (build_silver ⟨[] ++ [], [], [], [], []⟩ wDate dbW) :=
  ⟨by exact rfl,
    (C6_row_failure_isolated wDate dbW rowPat466 [] "invalid literal for int() with base 10: \x2746601.0\x27"
      "\x27bill_id\x27" [] [] [] [] ⟨[rowPat466], [], [], [], []⟩
      (by exact rfl) (by exact rfl) (by exact rfl)).2.1,
    (C6_row_failure_isolated wDate dbW rowPat466 [] "invalid literal for int() with base 10: \x2746601.0\x27"
      "\x27bill_id\x27" [] [] [] [] ⟨[rowPat466], [], [], [], []⟩
      (by exact rfl) (by exact rfl) (by exact rfl)).2.2.2.2⟩

/-- Claim C7: in every stage the commit sequence is the admitted-batch
insert first, then one independent audit append per rejected row; running
any prefix that contains the batch insert leaves the canonical table in
its final state (the admitted batch survives a later audit failure), and
the audit log after any such prefix holds exactly the appends already
committed (each one durable regardless of what follows). -/
theorem C7_commit_order_and_durability (today : Date) (db : DB)
    (bp bd ba bpr bb : List Raw) :
    (patientsOps bp today =
        Op.insPatients (processRows (validatePatient today) bp).1 ::
          (processRows (validatePatient today) bp).2.map
            (fun p => Op.auditAppend (mkRejected "patients" p)) ∧
      transform_patients bp today db = applyOps (patientsOps bp today) db ∧
      (∀ k : Nat, (applyOps ((patientsOps bp today).take (k + 1)) db).patients =
        (transform_patients bp today db).patients) ∧
      (∀ k : Nat, (applyOps ((patientsOps bp today).take (k + 1)) db).audit =
        db.audit ++ ((processRows (validatePatient today) bp).2.take k).map
          (mkRejected "patients"))) ∧
    (doctorsOps bd =
        Op.insDoctors (processRows validateDoctor bd).1 ::
          (processRows validateDoctor bd).2.map
            (fun p => Op.auditAppend (mkRejected "doctors" p)) ∧
      transform_doctors bd db = applyOps (doctorsOps bd) db ∧
      (∀ k : Nat, (applyOps ((doctorsOps bd).take (k + 1)) db).doctors =
        (transform_doctors bd db).doctors) ∧
      (∀ k : Nat, (applyOps ((doctorsOps bd).take (k + 1)) db).audit =
        db.audit ++ ((processRows validateDoctor bd).2.take k).map (mkRejected "doctors"))) ∧
    (appointmentsOps ba db =
        Op.insAppointments (processRows (validateAppointment
            (db.patients.map PatientRec.patient_id)
            (db.doctors.map DoctorRec.doctor_id)) ba).1 ::
          (processRows (validateAppointment (db.patients.map PatientRec.patient_id)
            (db.doctors.map DoctorRec.doctor_id)) ba).2.map
              (fun p => Op.auditAppend (mkRejected "appointments" p)) ∧
      transform_appointments ba db = applyOps (appointmentsOps ba db) db ∧
      (∀ k : Nat, (applyOps ((appointmentsOps ba db).take (k + 1)) db).appointments =
        (transform_appointments ba db).appointments) ∧
      (∀ k : Nat, (applyOps ((appointmentsOps ba db).take (k + 1)) db).audit =
        db.audit ++ ((processRows (validateAppointment
          (db.patients.map PatientRec.patient_id)
          (db.doctors.map DoctorRec.doctor_id)) ba).2.take k).map
            (mkRejected "appointments"))) ∧
    (prescriptionsOps bpr db =
        Op.insPrescriptions (processRows (validatePrescription
            (db.appointments.map ApptRec.appointment_id)) bpr).1 ::
          (processRows (validatePrescription
            (db.appointments.map ApptRec.appointment_id)) bpr).2.map
              (fun p => Op.auditAppend (mkRejected "prescriptions" p)) ∧
      transform_prescriptions bpr db = applyOps (prescriptionsOps bpr db) db ∧
      (∀ k : Nat, (applyOps ((prescriptionsOps bpr db).take (k + 1)) db).prescriptions =
        (transform_prescriptions bpr db).prescriptions) ∧
      (∀ k : Nat, (applyOps ((prescriptionsOps bpr db).take (k + 1)) db).audit =
        db.audit ++ ((processRows (validatePrescription
          (db.appointments.map ApptRec.appointment_id)) bpr).2.take k).map
            (mkRejected "prescriptions"))) ∧
    (billingOps bb db =
        Op.insBilling (processRows (validateBilling
            (db.patients.map PatientRec.patient_id)
            (db.appointments.map ApptRec.appointment_id)) bb).1 ::
          (processRows (validateBilling (db.patients.map PatientRec.patient_id)
            (db.appointments.map ApptRec.appointment_id)) bb).2.map
              (fun p => Op.auditAppend (mkRejected "billing" p)) ∧
      transform_billing bb db = applyOps (billingOps bb db) db ∧
      (∀ k : Nat, (applyOps ((billingOps bb db).take (k + 1)) db).billing =
        (transform_billing bb db).billing) ∧
      (∀ k : Nat, (applyOps ((billingOps bb db).take (k + 1)) db).audit =
        db.audit ++ ((processRows (validateBilling
          (db.patients.map PatientRec.patient_id)
          (db.appointments.map ApptRec.appointment_id)) bb).2.take k).map
            (mkRejected "billing"))) := by
  refine ⟨⟨rfl, transform_patients_ops bp today db, ?_, ?_⟩,
    ⟨rfl, transform_doctors_ops bd db, ?_, ?_⟩,
    ⟨rfl, transform_appointments_ops ba db, ?_, ?_⟩,
    ⟨rfl, transform_prescriptions_ops bpr db, ?_, ?_⟩,
    ⟨rfl, transform_billing_ops bb db, ?_, ?_⟩⟩
  all_goals intro k
  all_goals simp only [patientsOps, doctorsOps, appointmentsOps, prescriptionsOps, billingOps]
  all_goals rw [applyOps_stage_take]
  all_goals rfl

/-- Claim C3: `build_silver` runs the five stages in the fixed order
patients, doctors, appointments, prescriptions, billing; each dependent
stage's snapshot is the key set of the store as committed by the previous
stages — every appointment admitted during the run references patient and
doctor keys committed by the end of the doctors stage, every prescription
references an appointment key committed by the end of the appointments
stage, and every billing row references keys committed by the end of the
prescriptions stage. -/
theorem C3_stage_order (B : Bronze) (today : Date) (db : DB) :
    build_silver B today db =
        transform_billing B.billing
          (transform_prescriptions B.prescriptions
            (transform_appointments B.appointments
              (transform_doctors B.doctors
                (transform_patients B.patients today db)))) ∧
      (transform_appointments B.appointments
          (transform_doctors B.doctors
            (transform_patients B.patients today db))).appointments =
        insertNoConflict ApptRec.appointment_id db.appointments
          (admittedOf (validateAppointment
            ((transform_doctors B.doctors
              (transform_patients B.patients today db)).patients.map PatientRec.patient_id)
            ((transform_doctors B.doctors
              (transform_patients B.patients today db)).doctors.map DoctorRec.doctor_id))
            B.appointments) ∧
      (∀ rec ∈ (transform_appointments B.appointments
          (transform_doctors B.doctors
            (transform_patients B.patients today db))).appointments,
        rec ∈ db.appointments ∨
          (rec.patient_id ∈
              (transform_doctors B.doctors
                (transform_patients B.patients today db)).patients.map PatientRec.patient_id ∧
            rec.doctor_id ∈
              (transform_doctors B.doctors
                (transform_patients B.patients today db)).doctors.map DoctorRec.doctor_id)) ∧
      (∀ rec ∈ (transform_prescriptions B.prescriptions
          (transform_appointments B.appointments
            (transform_doctors B.doctors
              (transform_patients B.patients today db)))).prescriptions,
        rec ∈ db.prescriptions ∨
          rec.appointment_id ∈
            (transform_appointments B.appointments
              (transform_doctors B.doctors
                (transform_patients B.patients today db))).appointments.map
              ApptRec.appointment_id) ∧
      (∀ rec ∈ (build_silver B today db).billing,
        rec ∈ db.billing ∨
          (rec.patient_id ∈
              (transform_prescriptions B.prescriptions
                (transform_appointments B.appointments
                  (transform_doctors B.doctors
                    (transform_patients B.patients today db)))).patients.map
                PatientRec.patient_id ∧
            rec.appointment_id ∈
              (transform_prescriptions B.prescriptions
                (transform_appointments B.appointments
                  (transform_doctors B.doctors
                    (transform_patients B.patients today db)))).appointments.map
                ApptRec.appointment_id)) := by
  refine ⟨rfl, ?_, ?_, ?_, ?_⟩
  · rw [ta_appointments, processRows_fst, td_appointments, tp_appointments]
  · intro rec hrec
    rw [ta_appointments, processRows_fst, td_appointments, tp_appointments] at hrec
    rcases mem_insertNoConflict _ _ _ _ hrec with h1 | h2
    · exact Or.inl h1
    · rcases (mem_admittedOf _ _ _).mp h2 with ⟨r, _, hok⟩
      exact Or.inr (validateAppointment_ok _ _ _ _ hok)
  · intro rec hrec
    rw [tpr_prescriptions, processRows_fst, ta_prescriptions, td_prescriptions,
      tp_prescriptions] at hrec
    rcases mem_insertNoConflict _ _ _ _ hrec with h1 | h2
    · exact Or.inl h1
    · rcases (mem_admittedOf _ _ _).mp h2 with ⟨r, _, hok⟩
      exact Or.inr (validatePrescription_ok _ _ _ hok)
  · intro rec hrec
    have hb : (build_silver B today db).billing =
        insertNoConflict BillRec.bill_id db.billing
          (admittedOf (validateBilling
            ((transform_prescriptions B.prescriptions
              (transform_appointments B.appointments
                (transform_doctors B.doctors
                  (transform_patients B.patients today db)))).patients.map
              PatientRec.patient_id)
            ((transform_prescriptions B.prescriptions
              (transform_appointments B.appointments
                (transform_doctors B.doctors
                  (transform_patients B.patients today db)))).appointments.map
              ApptRec.appointment_id)) B.billing) := by
      rw [show build_silver B today db =
        transform_billing B.billing
          (transform_prescriptions B.prescriptions
            (transform_appointments B.appointments
              (transform_doctors B.doctors
                (transform_patients B.patients today db)))) from rfl,
        tb_billing, processRows_fst, tpr_billing, ta_billing, td_billing, tp_billing]
    rw [hb] at hrec
    rcases mem_insertNoConflict _ _ _ _ hrec with h1 | h2
    · exact Or.inl h1
    · rcases (mem_admittedOf _ _ _).mp h2 with ⟨r, _, hok⟩
      rcases validateBilling_ok _ _ _ _ hok with ⟨_, _, hfk1, hfk2⟩
      exact Or.inr ⟨hfk1, hfk2⟩

/-- Claim C1: re-running the whole silver build over the same bronze
input and the same reference date inserts nothing: all five canonical
tables are unchanged by the second run; and the conflict-ignore insert
drops a candidate whose primary key is already stored without touching
the table — first-write-wins, no merge, no overwrite, no error. -/
theorem C1_pipeline_idempotent (B : Bronze) (today : Date) (db : DB)
    (t rs : List PatientRec) (r : PatientRec)
    (hdup : r.patient_id ∈ t.map PatientRec.patient_id) :
    ((build_silver B today (build_silver B today db)).patients =
        (build_silver B today db).patients ∧
      (build_silver B today (build_silver B today db)).doctors =
        (build_silver B today db).doctors ∧
      (build_silver B today (build_silver B today db)).appointments =
        (build_silver B today db).appointments ∧
      (build_silver B today (build_silver B today db)).prescriptions =
        (build_silver B today db).prescriptions ∧
      (build_silver B today (build_silver B today db)).billing =
        (build_silver B today db).billing) ∧
      insertNoConflict PatientRec.patient_id t (r :: rs) =
        insertNoConflict PatientRec.patient_id t rs := by
  refine ⟨⟨?_, ?_, ?_, ?_, ?_⟩, ?_⟩
  · simp [build_silver, insertNoConflict_idem]
  · simp [build_silver, insertNoConflict_idem]
  · simp [build_silver, insertNoConflict_idem]
  · simp [build_silver, insertNoConflict_idem]
  · simp [build_silver, insertNoConflict_idem]
  · rw [insertNoConflict_cons, if_pos hdup]

/-- Concrete instance of claim C1: a second run over the same bronze
set leaves every canonical table as the first run committed it, and a
duplicate-key candidate is dropped without changing the table. -/
theorem C1_witness :
    wPatient.patient_id ∈ [wPatient].map PatientRec.patient_id ∧
      ((build_silver wBronze wDate (build_silver wBronze wDate dbEmpty)).patients =
          (build_silver wBronze wDate dbEmpty).patients ∧
        (build_silver wBronze wDate (build_silver wBronze wDate dbEmpty)).doctors =
          (build_silver wBronze wDate dbEmpty).doctors ∧
        (build_silver wBronze wDate (build_silver wBronze wDate dbEmpty)).appointments =
          (build_silver wBronze wDate dbEmpty).appointments ∧
        (build_silver wBronze wDate (build_silver wBronze wDate dbEmpty)).prescriptions =
          (build_silver wBronze wDate dbEmpty).prescriptions ∧
        (build_silver wBronze wDate (build_silver wBronze wDate dbEmpty)).billing =
          (build_silver wBronze wDate dbEmpty).billing) ∧
      insertNoConflict PatientRec.patient_id [wPatient] (wPatient :: []) =
        insertNoConflict PatientRec.patient_id [wPatient] [] :=
  ⟨by decide,
    (C1_pipeline_idempotent wBronze wDate dbEmpty [wPatient] [] wPatient (by decide)).1,
    (C1_pipeline_idempotent wBronze wDate dbEmpty [wPatient] [] wPatient (by decide)).2⟩

/-- Concrete instance of claim C3: the appointment admitted by the run
references the patient and doctor keys committed by the earlier stages. -/
theorem C3_witness :
    wAppt ∈ (transform_appointments wBronze.appointments
        (transform_doctors wBronze.doctors
          (transform_patients wBronze.patients wDate dbEmpty))).appointments ∧
      (wAppt ∈ dbEmpty.appointments ∨
        (wAppt.patient_id ∈
            (transform_doctors wBronze.doctors
              (transform_patients wBronze.patients wDate dbEmpty)).patients.map
              PatientRec.patient_id ∧
          wAppt.doctor_id ∈
            (transform_doctors wBronze.doctors
              (transform_patients wBronze.patients wDate dbEmpty)).doctors.map
              DoctorRec.doctor_id)) :=
  ⟨by decide, (C3_stage_order wBronze wDate dbEmpty).2.2.1 wAppt (by decide)⟩

/-- Concrete instance of claim C2: doctor 9999 absent, row rejected with
the naming reason and audited, nothing inserted for it. -/
theorem C2_witness :
    (9999 : Int) ∉ dbW.doctors.map DoctorRec.doctor_id ∧
      validateAppointment (dbW.patients.map PatientRec.patient_id)
          (dbW.doctors.map DoctorRec.doctor_id) rowDoc9999 =
        Except.error ("Doctor " ++ toString (9999 : Int) ++ " not found in silver.doctors") ∧
      Rejected.mk "appointments" rowDoc9999
          ("Doctor " ++ toString (9999 : Int) ++ " not found in silver.doctors") ∈
        (transform_appointments [rowDoc9999] dbW).audit :=
  ⟨by decide,
    (C2_appointments_referential_integrity [rowDoc9999] dbW rowDoc9999
      (Value.int 7) (Value.int 1) (Value.int 9999) (Value.str "2024-02-02")
      7 1 9999 ⟨2024, 2, 2⟩ (by decide) rfl rfl rfl rfl rfl rfl rfl (by decide)
      (by decide) (by decide)).2⟩

end Medallion
